import Mathlib

/-!
Verification of the PhysioMind CDSS backend (schema validation, the
diagnosis orchestrator's deterministic fallback, and the HTTP error
mapping), shallowly embedded from `app/models/schemas.py`,
`app/services/diagnosis_service.py` and `app/routes/analyze.py`.
-/

namespace Physio

/-- Risk flag severity levels (`RiskLevel` in schemas.py). -/
inductive RiskLevel where
  | red
  | yellow
  | green
deriving DecidableEq, Repr

/-- Patient's subjective history (`SubjectiveHistory` in schemas.py),
after validation. -/
structure SubjectiveHistory where
  chief_complaint : String
  symptom_duration : String
  symptom_description : String
  aggravating_factors : Option String
  relieving_factors : Option String
  previous_treatments : Option String
  medical_history : Option String
deriving DecidableEq, Repr

/-- Objective clinical findings (`ObjectiveFindings` in schemas.py),
after validation. -/
structure ObjectiveFindings where
  affected_region : String
  range_of_motion_notes : Option String
  strength_assessment : Option String
  special_tests : Option (List String)
  posture_observations : Option String
  gait_analysis : Option String
  palpation_findings : Option String
  neurological_screening : Option String
deriving DecidableEq, Repr

/-- Complete patient assessment input (`PatientInput` in schemas.py),
after validation. -/
structure PatientInput where
  patient_id : Option String
  pain_scale : Int
  subjective : SubjectiveHistory
  objective : ObjectiveFindings
  imaging_reports : Option String
  additional_notes : Option String
deriving DecidableEq, Repr

/-- Suggested therapeutic exercise (`Exercise` in schemas.py). -/
structure Exercise where
  name : String
  description : Option String
  sets : Int
  reps : Int
  hold_seconds : Option Int
  frequency : Option String
  precautions : Option String
deriving DecidableEq, Repr

/-- Clinical risk flag (`RiskFlag` in schemas.py). -/
structure RiskFlag where
  level : RiskLevel
  description : String
  recommended_action : Option String
deriving DecidableEq, Repr

/-- Structured treatment plan (`TreatmentPlan` in schemas.py). -/
structure TreatmentPlan where
  acute_phase : String
  recovery_phase : String
  maintenance : String
  precautions : Option String
  expected_timeline : Option String
deriving DecidableEq, Repr

/-- AI-generated diagnostic response (`DiagnosisResponse` in schemas.py). -/
structure DiagnosisResponse where
  differential_diagnosis : List String
  primary_diagnosis : String
  clinical_reasoning : String
  risk_flags : List RiskFlag
  treatment_plan : TreatmentPlan
  suggested_exercises : List Exercise
  prognosis : Option String
  follow_up_recommendations : Option String
  references : Option (List String)
deriving DecidableEq, Repr

/-! ### String helpers mirroring the Python primitives used by the code -/

/-- Whether `p` is a leading segment of `l` (Python `str.startswith`
restricted to char lists). -/
def startsWithChars : List Char → List Char → Bool
  | [], _ => true
  | _ :: _, [] => false
  | p :: ps, c :: cs => p == c && startsWithChars ps cs

/-- Whether `p` occurs contiguously inside `l` (Python's `in` operator
on strings, on char lists). -/
def containsChars (p : List Char) : List Char → Bool
  | [] => startsWithChars p []
  | c :: cs => startsWithChars p (c :: cs) || containsChars p cs

/-- Python `str.lower()`: lowercase every character. -/
def strToLower (s : String) : String :=
  ⟨s.data.map Char.toLower⟩

/-- Python `"night" in s.lower()`: case-insensitive substring test used by
`_generate_mock_diagnosis`. -/
def lowerContainsNight (s : String) : Bool :=
  containsChars "night".data (strToLower s).data

/-- Python `str.title()`: uppercase every character that follows a
non-alphabetic character (or starts the string), lowercase the rest. -/
def pyTitleGo : List Char → Bool → List Char
  | [], _ => []
  | c :: cs, prevAlpha =>
    (if prevAlpha then c.toLower else c.toUpper) :: pyTitleGo cs c.isAlpha

/-- Python `str.title()` on a string. -/
def pyTitle (s : String) : String :=
  ⟨pyTitleGo s.data false⟩

/-! ### Deterministic fallback (`DiagnosisService._generate_mock_diagnosis`) -/

/-- The yellow risk flag appended when `pain_scale >= 8`
(diagnosis_service.py lines 246-253). -/
def highPainFlag : RiskFlag :=
  { level := RiskLevel.yellow
    description := "High pain level may indicate acute condition"
    recommended_action := some "Monitor closely and consider pain management referral" }

/-- The red risk flag appended when the symptom description contains
"night" case-insensitively (diagnosis_service.py lines 255-262). -/
def nightPainFlag : RiskFlag :=
  { level := RiskLevel.red
    description := "Night pain reported - rule out serious pathology"
    recommended_action := some "Recommend medical evaluation to exclude red flags" }

/-- The three fixed exercises of the fallback report, parametrised by the
lower-cased affected region (diagnosis_service.py lines 264-291). -/
def mockExercises (region : String) : List Exercise :=
  [ { name := "Gentle Range of Motion"
      description := some ("Gentle active movements of the " ++ region)
      sets := 2
      reps := 10
      hold_seconds := none
      frequency := some "2-3 times daily"
      precautions := some "Stop if pain increases significantly" }
  , { name := "Isometric Strengthening"
      description := some "Hold muscle contraction without movement"
      sets := 3
      reps := 10
      hold_seconds := some 5
      frequency := some "Daily"
      precautions := some "Maintain neutral spine position" }
  , { name := "Stretching Program"
      description := some ("Targeted stretches for " ++ region ++ " musculature")
      sets := 2
      reps := 3
      hold_seconds := some 30
      frequency := some "2-3 times daily"
      precautions := some "Stretch to tension, not pain" } ]

/-- The fixed treatment plan of the fallback report, parametrised by the
lower-cased affected region (diagnosis_service.py lines 293-306). -/
def mockTreatmentPlan (region : String) : TreatmentPlan :=
  { acute_phase := "Focus on pain management and protection of " ++ region ++ ". "
      ++ "Apply ice/heat as appropriate. Limit aggravating activities. "
      ++ "Consider manual therapy for pain relief."
    recovery_phase := "Progressive loading of " ++ region ++ ". Introduce "
      ++ "strengthening exercises. Address movement dysfunctions. "
      ++ "Work on functional restoration."
    maintenance := "Long-term exercise program for prevention. "
      ++ "Address lifestyle factors. Self-management strategies. "
      ++ "Periodic reassessment as needed."
    precautions := some ("Avoid sudden increases in activity. "
      ++ "Progress exercises gradually based on response.")
    expected_timeline := some "6-12 weeks for full recovery with compliance" }

/-- `DiagnosisService._generate_mock_diagnosis` (diagnosis_service.py lines
229-333): the deterministic fallback report synthesized from the input. -/
def generateMockDiagnosis (patient_data : PatientInput) : DiagnosisResponse :=
  let region := strToLower patient_data.objective.affected_region
  let pain_level := patient_data.pain_scale
  let risk_flags : List RiskFlag := []
  let risk_flags := if pain_level ≥ 8 then risk_flags ++ [highPainFlag] else risk_flags
  let risk_flags :=
    if lowerContainsNight patient_data.subjective.symptom_description then
      risk_flags ++ [nightPainFlag]
    else risk_flags
  { differential_diagnosis :=
      [ pyTitle region ++ " strain/sprain"
      , pyTitle region ++ " mechanical dysfunction"
      , "Myofascial pain syndrome - " ++ region ]
    primary_diagnosis := pyTitle region ++ " mechanical dysfunction with "
      ++ "associated muscle guarding"
    clinical_reasoning := "Based on the subjective history of "
      ++ patient_data.subjective.chief_complaint ++ " with duration of "
      ++ patient_data.subjective.symptom_duration ++ ", and objective "
      ++ "findings in the " ++ region ++ " region, the presentation is "
      ++ "consistent with a mechanical musculoskeletal condition. "
      ++ "The pain pattern and response to movement support this diagnosis."
    risk_flags := risk_flags
    treatment_plan := mockTreatmentPlan region
    suggested_exercises := mockExercises region
    prognosis := some ("Good prognosis with appropriate treatment and patient compliance. "
      ++ "Expected improvement in symptoms within 4-6 weeks.")
    follow_up_recommendations := some ("Re-assess in 2 weeks. Progress exercises "
      ++ "as tolerated. Consider discharge after achieving functional goals.")
    references := some
      [ "Clinical Practice Guidelines - APTA"
      , "Evidence-based rehabilitation protocols" ] }

/-! ### Input validation (pydantic models of schemas.py)

A raw payload may omit fields; `none` in a required position models an
absent field, which pydantic rejects. Validation returns the typed value
on success and `none` on any constraint violation, mirroring pydantic's
construct-or-raise behaviour. -/

/-- Untyped `SubjectiveHistory` payload: every field may be absent. -/
structure RawSubjectiveHistory where
  chief_complaint : Option String
  symptom_duration : Option String
  symptom_description : Option String
  aggravating_factors : Option String
  relieving_factors : Option String
  previous_treatments : Option String
  medical_history : Option String
deriving DecidableEq, Repr

/-- Untyped `ObjectiveFindings` payload. -/
structure RawObjectiveFindings where
  affected_region : Option String
  range_of_motion_notes : Option String
  strength_assessment : Option String
  special_tests : Option (List String)
  posture_observations : Option String
  gait_analysis : Option String
  palpation_findings : Option String
  neurological_screening : Option String
deriving DecidableEq, Repr

/-- Untyped `PatientInput` payload. -/
structure RawPatientInput where
  patient_id : Option String
  pain_scale : Option Int
  subjective : Option RawSubjectiveHistory
  objective : Option RawObjectiveFindings
  imaging_reports : Option String
  additional_notes : Option String
deriving DecidableEq, Repr

/-- A present optional string must not exceed its maximum length; an
absent one is always fine (pydantic `Optional[str]` with `max_length`). -/
def optLenOk (o : Option String) (mx : Nat) : Bool :=
  match o with
  | none => true
  | some s => s.length ≤ mx

/-- Validation of `SubjectiveHistory` (schemas.py lines 21-63): the three
required fields must be present; `chief_complaint` has `min_length=1,
max_length=500`, `symptom_duration` has `max_length=100`,
`symptom_description` has `max_length=2000`; the four optional fields are
bounded by 500, 500, 1000, 1000 characters. -/
def validateSubjective (raw : RawSubjectiveHistory) : Option SubjectiveHistory :=
  match raw.chief_complaint, raw.symptom_duration, raw.symptom_description with
  | some cc, some sd, some desc =>
    if (1 ≤ cc.length && cc.length ≤ 500)
        && sd.length ≤ 100
        && desc.length ≤ 2000
        && optLenOk raw.aggravating_factors 500
        && optLenOk raw.relieving_factors 500
        && optLenOk raw.previous_treatments 1000
        && optLenOk raw.medical_history 1000 then
      some
        { chief_complaint := cc
          symptom_duration := sd
          symptom_description := desc
          aggravating_factors := raw.aggravating_factors
          relieving_factors := raw.relieving_factors
          previous_treatments := raw.previous_treatments
          medical_history := raw.medical_history }
    else none
  | _, _, _ => none

/-- Validation of `ObjectiveFindings` (schemas.py lines 66-111):
`affected_region` is required with `max_length=100`; the optional text
fields are bounded by 1000, 1000, 500, 500, 500, 500 characters;
`special_tests` is an unconstrained optional list. -/
def validateObjective (raw : RawObjectiveFindings) : Option ObjectiveFindings :=
  match raw.affected_region with
  | some ar =>
    if ar.length ≤ 100
        && optLenOk raw.range_of_motion_notes 1000
        && optLenOk raw.strength_assessment 1000
        && optLenOk raw.posture_observations 500
        && optLenOk raw.gait_analysis 500
        && optLenOk raw.palpation_findings 500
        && optLenOk raw.neurological_screening 500 then
      some
        { affected_region := ar
          range_of_motion_notes := raw.range_of_motion_notes
          strength_assessment := raw.strength_assessment
          special_tests := raw.special_tests
          posture_observations := raw.posture_observations
          gait_analysis := raw.gait_analysis
          palpation_findings := raw.palpation_findings
          neurological_screening := raw.neurological_screening }
    else none
  | none => none

/-- Validation of `PatientInput` (schemas.py lines 114-143): `pain_scale`
is a required integer with `ge=0, le=10`; `subjective` and `objective`
are required nested models; `patient_id`, `imaging_reports` and
`additional_notes` are optional strings bounded by 50, 2000 and 1000. -/
def validatePatientInput (raw : RawPatientInput) : Option PatientInput :=
  match raw.pain_scale, raw.subjective, raw.objective with
  | some p, some rs, some ro =>
    match validateSubjective rs, validateObjective ro with
    | some s, some o =>
      if (0 ≤ p && p ≤ 10)
          && optLenOk raw.patient_id 50
          && optLenOk raw.imaging_reports 2000
          && optLenOk raw.additional_notes 1000 then
        some
          { patient_id := raw.patient_id
            pain_scale := p
            subjective := s
            objective := o
            imaging_reports := raw.imaging_reports
            additional_notes := raw.additional_notes }
      else none
    | _, _ => none
  | _, _, _ => none

/-! ### Output validation (pydantic models of schemas.py, response side)

The generation call parses the returned content into the response schema;
these boolean validators express the field constraints pydantic enforces
on an already-shaped `DiagnosisResponse`. -/

/-- Constraints of `Exercise` (schemas.py lines 146-190): `name` bounded
by 100, optional `description` by 500, `sets ∈ [1,10]`, `reps ∈ [1,50]`,
optional `hold_seconds ∈ [1,60]`, optional `frequency` by 50, optional
`precautions` by 200. -/
def exerciseValid (e : Exercise) : Bool :=
  e.name.length ≤ 100
    && optLenOk e.description 500
    && (1 ≤ e.sets && e.sets ≤ 10)
    && (1 ≤ e.reps && e.reps ≤ 50)
    && (match e.hold_seconds with
        | none => true
        | some h => 1 ≤ h && h ≤ 60)
    && optLenOk e.frequency 50
    && optLenOk e.precautions 200

/-- Constraints of `RiskFlag` (schemas.py lines 193-213). -/
def riskFlagValid (f : RiskFlag) : Bool :=
  f.description.length ≤ 500 && optLenOk f.recommended_action 300

/-- Constraints of `TreatmentPlan` (schemas.py lines 216-247). -/
def treatmentPlanValid (tp : TreatmentPlan) : Bool :=
  tp.acute_phase.length ≤ 1000
    && tp.recovery_phase.length ≤ 1000
    && tp.maintenance.length ≤ 1000
    && optLenOk tp.precautions 500
    && optLenOk tp.expected_timeline 200

/-- Constraints of `DiagnosisResponse` (schemas.py lines 250-298):
`differential_diagnosis` has `min_length=1`; `primary_diagnosis` bounded
by 200 and `clinical_reasoning` by 2000; every risk flag, the treatment
plan and every exercise must satisfy their own constraints; `prognosis`
and `follow_up_recommendations` bounded by 500. -/
def diagnosisResponseValid (d : DiagnosisResponse) : Bool :=
  1 ≤ d.differential_diagnosis.length
    && d.primary_diagnosis.length ≤ 200
    && d.clinical_reasoning.length ≤ 2000
    && d.risk_flags.all riskFlagValid
    && treatmentPlanValid d.treatment_plan
    && d.suggested_exercises.all exerciseValid
    && optLenOk d.prognosis 500
    && optLenOk d.follow_up_recommendations 500

/-! ### Generation call and failure handling
(`DiagnosisService._call_openai`, `DiagnosisService.analyze`) -/

/-- The ways the body of `_call_openai`'s `try` block can fail: the client
library import raises `ImportError`; the API call raises some exception;
the response content is empty (the code raises `ConnectionError("Empty
response from AI service")`); the content fails output validation
(pydantic raises). -/
inductive GenFailure where
  | importError
  | apiException (msg : String)
  | emptyResponse
  | invalidResponse (msg : String)
deriving DecidableEq, Repr

/-- Outcome of the external generation attempt, before the service's
exception handling is applied. -/
inductive GenOutcome where
  | ok (resp : DiagnosisResponse)
  | fail (f : GenFailure)
deriving DecidableEq, Repr

/-- Result of the service layer: a validated response, or a raised
`ConnectionError` carrying a message. -/
inductive CallResult where
  | success (resp : DiagnosisResponse)
  | connectionError (msg : String)
deriving DecidableEq, Repr

/-- The `str(e)` of the exception the generic handler caught. -/
def genFailureMessage : GenFailure → String
  | GenFailure.importError => "OpenAI package not installed"
  | GenFailure.apiException m => m
  | GenFailure.emptyResponse => "Empty response from AI service"
  | GenFailure.invalidResponse m => m

/-- `DiagnosisService._call_openai` (diagnosis_service.py lines 172-227):
an `ImportError` is re-raised as `ConnectionError("OpenAI package not
installed")` with no fallback; any other exception falls back to the mock
diagnosis when the `ENVIRONMENT` variable equals "development" and is
otherwise re-raised as `ConnectionError("AI service error: " + str(e))`. -/
def callOpenai (environment : String) (patient_data : PatientInput)
    (outcome : GenOutcome) : CallResult :=
  match outcome with
  | GenOutcome.ok r => CallResult.success r
  | GenOutcome.fail GenFailure.importError =>
    CallResult.connectionError "OpenAI package not installed"
  | GenOutcome.fail f =>
    if environment = "development" then
      CallResult.success (generateMockDiagnosis patient_data)
    else
      CallResult.connectionError ("AI service error: " ++ genFailureMessage f)

/-- `DiagnosisService.analyze` (diagnosis_service.py lines 141-170): with
an API key configured the external call path runs; with no key the mock
diagnosis is returned directly. -/
def analyze (api_key : Option String) (environment : String)
    (patient_data : PatientInput) (outcome : GenOutcome) : CallResult :=
  match api_key with
  | some _ => callOpenai environment patient_data outcome
  | none => CallResult.success (generateMockDiagnosis patient_data)

/-! ### HTTP boundary (`analyze_patient_data` in routes/analyze.py) -/

/-- The exceptions the route handler distinguishes (analyze.py lines
75-102): `ValueError`, `ConnectionError`, and any other exception. -/
inductive AnalyzeFailure where
  | valueError (msg : String)
  | connError (msg : String)
  | otherError (msg : String)
deriving DecidableEq, Repr

/-- An HTTP error response: status code plus the detail payload
(`success`, `error_code`, `message`, optional `details`). -/
structure ErrorResp where
  status : Nat
  success : Bool
  error_code : String
  message : String
  details : Option String
deriving DecidableEq, Repr

/-- The route handler's exception mapping (analyze.py lines 75-102):
`ValueError` becomes 400/VALIDATION_ERROR with the exception text,
`ConnectionError` becomes 503/AI_SERVICE_UNAVAILABLE with a fixed
message, anything else becomes 500/INTERNAL_ERROR with a fixed message
and the exception text attached as details when non-empty. -/
def mapFailure : AnalyzeFailure → ErrorResp
  | AnalyzeFailure.valueError m =>
    { status := 400
      success := false
      error_code := "VALIDATION_ERROR"
      message := m
      details := none }
  | AnalyzeFailure.connError _ =>
    { status := 503
      success := false
      error_code := "AI_SERVICE_UNAVAILABLE"
      message := "The AI service is currently unavailable. Please try again later."
      details := none }
  | AnalyzeFailure.otherError m =>
    { status := 500
      success := false
      error_code := "INTERNAL_ERROR"
      message := "An unexpected error occurred during analysis."
      details := if m = "" then none else some m }

/-- The 200 envelope built by the route on success (analyze.py lines
68-73): the processing time is request timing metadata, abstracted as a
parameter. -/
structure AnalysisResponse where
  success : Bool
  diagnosis : DiagnosisResponse
  processing_time_ms : Option Nat
  model_version : Option String
deriving DecidableEq, Repr

/-- Result of one request at the HTTP boundary. -/
inductive HttpResult where
  | ok (status : Nat) (resp : AnalysisResponse)
  | err (e : ErrorResp)
deriving DecidableEq, Repr

/-- `analyze_patient_data` (analyze.py lines 46-102) on an
already-validated body: runs the service and wraps the outcome; a raised
`ConnectionError` is mapped through the handler's taxonomy. -/
def analyzePatientData (api_key : Option String) (environment : String)
    (patient_data : PatientInput) (outcome : GenOutcome)
    (processing_time : Nat) : HttpResult :=
  match analyze api_key environment patient_data outcome with
  | CallResult.success d =>
    HttpResult.ok 200
      { success := true
        diagnosis := d
        processing_time_ms := some processing_time
        model_version := some "gpt-4o-2024-01-25" }
  | CallResult.connectionError m =>
    HttpResult.err (mapFailure (AnalyzeFailure.connError m))

/-! ### Concrete fixtures used in the theorems below -/

/-- A minimal valid subjective history payload (the one the repository's
own tests use). -/
def minimalRawSubjective : RawSubjectiveHistory :=
  { chief_complaint := some "Pain"
    symptom_duration := some "1 day"
    symptom_description := some "Pain description"
    aggravating_factors := none
    relieving_factors := none
    previous_treatments := none
    medical_history := none }

/-- A minimal valid objective findings payload. -/
def minimalRawObjective : RawObjectiveFindings :=
  { affected_region := some "Back"
    range_of_motion_notes := none
    strength_assessment := none
    special_tests := none
    posture_observations := none
    gait_analysis := none
    palpation_findings := none
    neurological_screening := none }

/-- A patient payload with the given pain score and the rest of the
payload valid. -/
def painRaw (p : Int) : RawPatientInput :=
  { patient_id := none
    pain_scale := some p
    subjective := some minimalRawSubjective
    objective := some minimalRawObjective
    imaging_reports := none
    additional_notes := none }

/-- A subjective payload with the given chief complaint and the rest of
the payload valid. -/
def chiefRaw (cc : String) : RawSubjectiveHistory :=
  { minimalRawSubjective with chief_complaint := some cc }

/-- The minimal valid end-to-end payload of the spec's end-to-end test. -/
def minimalPayloadRaw : RawPatientInput :=
  { patient_id := none
    pain_scale := some 6
    subjective := some
      { chief_complaint := some "Lower back pain"
        symptom_duration := some "2 weeks"
        symptom_description := some "Dull ache"
        aggravating_factors := none
        relieving_factors := none
        previous_treatments := none
        medical_history := none }
    objective := some
      { affected_region := some "Lumbar spine"
        range_of_motion_notes := none
        strength_assessment := none
        special_tests := none
        posture_observations := none
        gait_analysis := none
        palpation_findings := none
        neurological_screening := none }
    imaging_reports := none
    additional_notes := none }

/-- The typed value the minimal payload validates to. -/
def minimalPayload : PatientInput :=
  { patient_id := none
    pain_scale := 6
    subjective :=
      { chief_complaint := "Lower back pain"
        symptom_duration := "2 weeks"
        symptom_description := "Dull ache"
        aggravating_factors := none
        relieving_factors := none
        previous_treatments := none
        medical_history := none }
    objective :=
      { affected_region := "Lumbar spine"
        range_of_motion_notes := none
        strength_assessment := none
        special_tests := none
        posture_observations := none
        gait_analysis := none
        palpation_findings := none
        neurological_screening := none }
    imaging_reports := none
    additional_notes := none }

/-- A validated input with pain score 9 and no "night" substring in the
symptom description. -/
def highPainInput : PatientInput :=
  { minimalPayload with pain_scale := 9 }

/-- A validated input with pain score 9 and a symptom description
containing "Night". -/
def highPainNightInput : PatientInput :=
  { minimalPayload with
      pain_scale := 9
      subjective := { minimalPayload.subjective with
        symptom_description := "Night pain wakes me" } }

/-- A diagnosis report with an empty differential-diagnosis list (as in
the repository's own test of that rejection). -/
def emptyDifferentialReport : DiagnosisResponse :=
  { differential_diagnosis := []
    primary_diagnosis := "Something"
    clinical_reasoning := "Reasoning"
    risk_flags := []
    treatment_plan :=
      { acute_phase := "Phase 1"
        recovery_phase := "Phase 2"
        maintenance := "Phase 3"
        precautions := none
        expected_timeline := none }
    suggested_exercises := []
    prognosis := none
    follow_up_recommendations := none
    references := none }

/-- An exercise with `sets = 0`, below the minimum of 1 (as in the
repository's own test of that rejection). -/
def badSetsExercise : Exercise :=
  { name := "Invalid exercise"
    description := none
    sets := 0
    reps := 10
    hold_seconds := none
    frequency := none
    precautions := none }

/-- A diagnosis report that contains an out-of-bounds exercise. -/
def badExerciseReport : DiagnosisResponse :=
  { emptyDifferentialReport with
      differential_diagnosis := ["Lumbar strain"]
      suggested_exercises := [badSetsExercise] }

/-! ### Theorems for the claims -/

/-- C1: the fallback's risk-flag list is exactly the yellow flag when the
pain score is at least 8 followed by the red flag when the symptom
description contains "night" case-insensitively, and nothing else; in
particular pain 9 without "night" gives exactly the yellow flag, and
pain 9 with "night" gives exactly the yellow then the red flag. -/
theorem mock_risk_flags_exact (input : PatientInput) :
    (generateMockDiagnosis input).risk_flags =
      (if 8 ≤ input.pain_scale then [highPainFlag] else [])
        ++ (if lowerContainsNight input.subjective.symptom_description then
              [nightPainFlag] else [])
    ∧ (generateMockDiagnosis highPainInput).risk_flags = [highPainFlag]
    ∧ (generateMockDiagnosis highPainNightInput).risk_flags =
        [highPainFlag, nightPainFlag] := by
  refine ⟨?_, by decide, by decide⟩
  simp only [generateMockDiagnosis]
  split <;> split <;> simp

/-- C3: the route handler maps a `ValueError` to 400/VALIDATION_ERROR
with the exception text, a `ConnectionError` to 503/AI_SERVICE_UNAVAILABLE,
and any other exception to 500/INTERNAL_ERROR, every error response
carrying `success = false` and a message. -/
theorem http_error_taxonomy (m : String) :
    mapFailure (AnalyzeFailure.valueError m) =
      { status := 400
        success := false
        error_code := "VALIDATION_ERROR"
        message := m
        details := none }
    ∧ mapFailure (AnalyzeFailure.connError m) =
      { status := 503
        success := false
        error_code := "AI_SERVICE_UNAVAILABLE"
        message := "The AI service is currently unavailable. Please try again later."
        details := none }
    ∧ mapFailure (AnalyzeFailure.otherError m) =
      { status := 500
        success := false
        error_code := "INTERNAL_ERROR"
        message := "An unexpected error occurred during analysis."
        details := if m = "" then none else some m } :=
  ⟨rfl, rfl, rfl⟩

/-- C8: submitting the same validated input twice through the fallback
path (no API key configured, so no external call is made) produces the
same diagnosis and the same envelope fields on both runs; the two
responses can differ only in the `processing_time_ms` metadata. -/
theorem fallback_idempotent (input : PatientInput)
    (env1 env2 : String) (o1 o2 : GenOutcome) (t1 t2 : Nat) :
    ∃ d : DiagnosisResponse,
      analyzePatientData none env1 input o1 t1 =
        HttpResult.ok 200
          { success := true
            diagnosis := d
            processing_time_ms := some t1
            model_version := some "gpt-4o-2024-01-25" }
      ∧ analyzePatientData none env2 input o2 t2 =
        HttpResult.ok 200
          { success := true
            diagnosis := d
            processing_time_ms := some t2
            model_version := some "gpt-4o-2024-01-25" } :=
  ⟨generateMockDiagnosis input, rfl, rfl⟩

/-- C2 counterexample: in development mode, an `ImportError` of the
client library — one kind of failure of the generation step — is raised
as a `ConnectionError` instead of being answered from the deterministic
fallback, refuting "this holds for every kind of failure". -/
theorem import_error_no_dev_fallback :
    callOpenai "development" minimalPayload
        (GenOutcome.fail GenFailure.importError) =
      CallResult.connectionError "OpenAI package not installed"
    ∧ callOpenai "development" minimalPayload
        (GenOutcome.fail GenFailure.importError) ≠
      CallResult.success (generateMockDiagnosis minimalPayload) :=
  ⟨rfl, by decide⟩

/-- C2 amended: for every failure of the generation call or response
validation other than an import failure of the client library,
development mode answers from the deterministic fallback and every other
mode surfaces a `ConnectionError`; an import failure surfaces as a
`ConnectionError` in every mode. -/
theorem dev_fallback_amended (env : String) (input : PatientInput)
    (f : GenFailure) (hf : f ≠ GenFailure.importError) :
    (env = "development" →
      callOpenai env input (GenOutcome.fail f) =
        CallResult.success (generateMockDiagnosis input))
    ∧ (env ≠ "development" →
      callOpenai env input (GenOutcome.fail f) =
        CallResult.connectionError
          ("AI service error: " ++ genFailureMessage f)) := by
  cases f with
  | importError => exact absurd rfl hf
  | apiException m =>
    exact ⟨fun h => by simp [callOpenai, h], fun h => by simp [callOpenai, h]⟩
  | emptyResponse =>
    exact ⟨fun h => by simp [callOpenai, h], fun h => by simp [callOpenai, h]⟩
  | invalidResponse m =>
    exact ⟨fun h => by simp [callOpenai, h], fun h => by simp [callOpenai, h]⟩

/-- Witness for the amended C2 at a concrete API failure in development
mode. -/
theorem dev_fallback_amended_witness :
    GenFailure.apiException "boom" ≠ GenFailure.importError
    ∧ callOpenai "development" minimalPayload
        (GenOutcome.fail (GenFailure.apiException "boom")) =
      CallResult.success (generateMockDiagnosis minimalPayload) :=
  ⟨by decide,
    (dev_fallback_amended "development" minimalPayload
      (GenFailure.apiException "boom") (by decide)).1 rfl⟩

/-- C4: with the rest of the payload valid, a pain score `p` is accepted
exactly when `0 ≤ p ≤ 10`; in particular `-1` and `11` are rejected. -/
theorem pain_scale_bounds (p : Int) :
    ((validatePatientInput (painRaw p)).isSome = true ↔ 0 ≤ p ∧ p ≤ 10)
    ∧ validatePatientInput (painRaw (-1)) = none
    ∧ validatePatientInput (painRaw 11) = none := by
  refine ⟨?_, by decide, by decide⟩
  have hs1 : 1 ≤ ("Pain" : String).length := by decide
  have hs : ("Pain" : String).length ≤ 500 := by decide
  have hd : ("1 day" : String).length ≤ 100 := by decide
  have hde : ("Pain description" : String).length ≤ 2000 := by decide
  have hb : ("Back" : String).length ≤ 100 := by decide
  by_cases h0 : 0 ≤ p <;> by_cases h1 : p ≤ 10 <;>
    simp [validatePatientInput, painRaw, validateSubjective, validateObjective,
      minimalRawSubjective, minimalRawObjective, optLenOk,
      hs1, hs, hd, hde, hb, h0, h1]

set_option maxRecDepth 40000 in
/-- C5: with the rest of the payload valid, a chief complaint `cc` is
accepted exactly when its length is in `[1,500]`; in particular length 0
is rejected, length 500 is accepted and length 501 is rejected. -/
theorem chief_complaint_bounds (cc : String) :
    ((validateSubjective (chiefRaw cc)).isSome = true ↔
      1 ≤ cc.length ∧ cc.length ≤ 500)
    ∧ validateSubjective (chiefRaw "") = none
    ∧ (validateSubjective (chiefRaw ⟨List.replicate 500 'a'⟩)).isSome = true
    ∧ validateSubjective (chiefRaw ⟨List.replicate 501 'a'⟩) = none := by
  refine ⟨?_, by decide, by decide, by decide⟩
  have hd : ("1 day" : String).length ≤ 100 := by decide
  have hde : ("Pain description" : String).length ≤ 2000 := by decide
  by_cases h0 : 1 ≤ cc.length <;> by_cases h1 : cc.length ≤ 500 <;>
    simp [validateSubjective, chiefRaw, minimalRawSubjective, optLenOk,
      hd, hde, h0, h1]

/-- C6 counterexample: a payload whose symptom duration (or symptom
description) is the empty string passes input validation — only
`chief_complaint` carries a minimum length, the other two required
fields only carry maximum lengths. -/
theorem empty_duration_accepted :
    (validateSubjective
      { minimalRawSubjective with symptom_duration := some "" }).isSome = true
    ∧ (validateSubjective
      { minimalRawSubjective with symptom_description := some "" }).isSome = true :=
  ⟨by decide, by decide⟩

/-- C6 amended: the three fields are required — a payload in which any of
them is absent is rejected — and an empty chief complaint is rejected,
but an empty symptom duration or symptom description is accepted. -/
theorem subjective_required_fields (raw : RawSubjectiveHistory)
    (h : raw.chief_complaint = none ∨ raw.symptom_duration = none
      ∨ raw.symptom_description = none ∨ raw.chief_complaint = some "") :
    validateSubjective raw = none := by
  obtain ⟨cc, sd, desc, af, rf, pt, mh⟩ := raw
  simp only at h
  rcases h with h | h | h | h <;> subst h
  · cases sd <;> cases desc <;> rfl
  · cases cc <;> cases desc <;> rfl
  · cases cc <;> cases sd <;> rfl
  · cases sd <;> cases desc <;> rfl

/-- Witness for the amended C6 at a concrete payload missing its chief
complaint. -/
theorem subjective_required_fields_witness :
    (({ minimalRawSubjective with chief_complaint := none }
        : RawSubjectiveHistory).chief_complaint = none
      ∨ ({ minimalRawSubjective with chief_complaint := none }
        : RawSubjectiveHistory).symptom_duration = none
      ∨ ({ minimalRawSubjective with chief_complaint := none }
        : RawSubjectiveHistory).symptom_description = none
      ∨ ({ minimalRawSubjective with chief_complaint := none }
        : RawSubjectiveHistory).chief_complaint = some "")
    ∧ validateSubjective
        { minimalRawSubjective with chief_complaint := none } = none :=
  ⟨Or.inl rfl, subjective_required_fields _ (Or.inl rfl)⟩

/-- C7: output validation rejects every report whose differential list is
empty, and every report containing an exercise whose sets is outside
[1,10], whose reps is outside [1,50], or whose hold duration, when
present, is outside [1,60]. -/
theorem output_validation_rejects (d : DiagnosisResponse) :
    (d.differential_diagnosis = [] → diagnosisResponseValid d = false)
    ∧ (∀ e, e ∈ d.suggested_exercises →
        (e.sets < 1 ∨ 10 < e.sets ∨ e.reps < 1 ∨ 50 < e.reps
          ∨ (∃ k, e.hold_seconds = some k ∧ (k < 1 ∨ 60 < k))) →
        diagnosisResponseValid d = false) := by
  constructor
  · intro h
    cases hv : diagnosisResponseValid d with
    | false => rfl
    | true =>
      exfalso
      simp only [diagnosisResponseValid, Bool.and_eq_true, decide_eq_true_eq] at hv
      obtain ⟨⟨⟨⟨⟨⟨⟨hlen, hpd⟩, hcr⟩, hrf⟩, htp⟩, hex⟩, hpr⟩, hfu⟩ := hv
      rw [h] at hlen
      simp at hlen
  · intro e he hbad
    have hev : exerciseValid e = false := by
      cases hevt : exerciseValid e with
      | false => rfl
      | true =>
        exfalso
        simp only [exerciseValid, Bool.and_eq_true, decide_eq_true_eq] at hevt
        obtain ⟨⟨⟨⟨⟨⟨hn, hd2⟩, hs1, hs2⟩, hr1, hr2⟩, hh⟩, hf⟩, hp⟩ := hevt
        rcases hbad with h | h | h | h | ⟨k, hk, hkb⟩
        · omega
        · omega
        · omega
        · omega
        · rw [hk] at hh
          simp only [Bool.and_eq_true, decide_eq_true_eq] at hh
          omega
    cases hv : diagnosisResponseValid d with
    | false => rfl
    | true =>
      exfalso
      simp only [diagnosisResponseValid, Bool.and_eq_true, decide_eq_true_eq] at hv
      obtain ⟨⟨⟨⟨⟨⟨⟨hlen, hpd⟩, hcr⟩, hrf⟩, htp⟩, hex⟩, hpr⟩, hfu⟩ := hv
      rw [List.all_eq_true] at hex
      have := hex e he
      rw [hev] at this
      exact Bool.false_ne_true this

/-- Witness for C7: a concrete report with an empty differential list and
a concrete report containing an exercise with `sets = 0` are both
rejected. -/
theorem output_validation_rejects_witness :
    diagnosisResponseValid emptyDifferentialReport = false
    ∧ diagnosisResponseValid badExerciseReport = false :=
  ⟨(output_validation_rejects emptyDifferentialReport).1 rfl,
   (output_validation_rejects badExerciseReport).2 badSetsExercise
     (by decide) (Or.inl (by decide))⟩

set_option maxRecDepth 40000 in
/-- C9: with no API key configured, the minimal valid payload validates,
and the request is answered with status 200, `success = true`, a
treatment plan whose three required phases are all non-empty, and a
differential-diagnosis list of length at least 1. -/
theorem minimal_payload_end_to_end (env : String) (outcome : GenOutcome)
    (t : Nat) :
    validatePatientInput minimalPayloadRaw = some minimalPayload
    ∧ analyzePatientData none env minimalPayload outcome t =
        HttpResult.ok 200
          { success := true
            diagnosis := generateMockDiagnosis minimalPayload
            processing_time_ms := some t
            model_version := some "gpt-4o-2024-01-25" }
    ∧ 1 ≤ (generateMockDiagnosis minimalPayload).treatment_plan.acute_phase.length
    ∧ 1 ≤ (generateMockDiagnosis minimalPayload).treatment_plan.recovery_phase.length
    ∧ 1 ≤ (generateMockDiagnosis minimalPayload).treatment_plan.maintenance.length
    ∧ 1 ≤ (generateMockDiagnosis minimalPayload).differential_diagnosis.length :=
  ⟨by decide, rfl, by decide, by decide, by decide, by decide⟩

/-- The numeric dosage constraints of `Exercise` (schemas.py lines
163-180): `sets ∈ [1,10]`, `reps ∈ [1,50]`, optional
`hold_seconds ∈ [1,60]`. -/
def exerciseDoseOk (e : Exercise) : Bool :=
  (1 ≤ e.sets && e.sets ≤ 10) && (1 ≤ e.reps && e.reps ≤ 50)
    && (match e.hold_seconds with
        | none => true
        | some h => 1 ≤ h && h ≤ 60)

/-- C10: for every input, the fallback report has exactly 3 differential
diagnoses, exactly 3 exercises all within the dosage bounds, at most 2
risk flags none of which is green, and three non-empty treatment-plan
phases. -/
theorem mock_report_well_formed (input : PatientInput) :
    (generateMockDiagnosis input).differential_diagnosis.length = 3
    ∧ (generateMockDiagnosis input).suggested_exercises.length = 3
    ∧ (generateMockDiagnosis input).suggested_exercises.all exerciseDoseOk = true
    ∧ (generateMockDiagnosis input).risk_flags.length ≤ 2
    ∧ (generateMockDiagnosis input).risk_flags.all
        (fun f => !(f.level == RiskLevel.green)) = true
    ∧ 1 ≤ (generateMockDiagnosis input).treatment_plan.acute_phase.length
    ∧ 1 ≤ (generateMockDiagnosis input).treatment_plan.recovery_phase.length
    ∧ 1 ≤ (generateMockDiagnosis input).treatment_plan.maintenance.length := by
  have h1 : 1 ≤ ("Focus on pain management and protection of " : String).length := by
    decide
  have h2 : 1 ≤ ("Progressive loading of " : String).length := by decide
  have h3 : 1 ≤ ("Long-term exercise program for prevention. " : String).length := by
    decide
  refine ⟨?_, ?_, ?_, ?_, ?_, ?_, ?_, ?_⟩
  · simp [generateMockDiagnosis]
  · simp [generateMockDiagnosis, mockExercises]
  · simp [generateMockDiagnosis, mockExercises, exerciseDoseOk]
  · simp only [generateMockDiagnosis]
    split <;> split <;> simp
  · simp only [generateMockDiagnosis]
    split <;> split <;> simp [highPainFlag, nightPainFlag]
  · simp only [generateMockDiagnosis, mockTreatmentPlan, String.length_append]
    omega
  · simp only [generateMockDiagnosis, mockTreatmentPlan, String.length_append]
    omega
  · simp only [generateMockDiagnosis, mockTreatmentPlan, String.length_append]
    omega

end Physio
